import Mathlib

/-!
Verification of `makeai12555/landing-generator` (Flask backend, `src/app.py`,
`src/_old_python/app.py`, `src/_old_python/banner_pipeline.py`).

Shallow embedding conventions:
* Python strings are `List Char` (sequences of code points); Python slicing
  `s[:n]` is `List.take n`; f-string interpolation is list append.
* Python dicts carrying course data are records whose fields are `Option`s;
  `d.get(k, default)` is `(·.getD default)`.  `dict.get` never raises, so the
  embedded builders are total functions.
* Bytes objects are `List Nat` (each entry a byte value).
* The external Gemini API, the Wand SVG converter, PIL image decoding and the
  ColorThief quantizer are modelled as oracles (function-valued environment
  fields); a `none`/`Except.error` outcome models "no image"/"raised".
-/

namespace LandingGen

/-- Python string, as a sequence of code points. -/
abbrev Str := List Char

/-- PNG-serialized bytes of a PIL image (images are identified with the bytes
`img.save(buffer, format="PNG")` produces). -/
abbrev Img := List Nat

/-! ## CourseData (src/app.py and src/_old_python/app.py, JSON request bodies) -/

/-- The `schedule` sub-dict of `course_details`. -/
structure Schedule where
  dates : Option Str := none
  time : Option Str := none
  days : Option Str := none
deriving Repr, DecidableEq

/-- The `course_details` section of the request JSON. -/
structure CourseDetails where
  title : Option Str := none
  description : Option Str := none
  schedule : Option Schedule := none
  location : Option Str := none
  duration : Option Str := none
deriving Repr, DecidableEq

/-- The `design_preferences` section of the request JSON. -/
structure DesignPreferences where
  aesthetic_style : Option Str := none
  color_palette : Option Str := none
  lighting_and_atmosphere : Option Str := none
deriving Repr, DecidableEq

/-- The parts of the `courseData` object the prompt builders read. -/
structure CourseData where
  course_details : Option CourseDetails := none
  design_preferences : Option DesignPreferences := none
deriving Repr, DecidableEq

/-- `course_data.get("course_details", {})` (app.py line 149). -/
def courseDetailsOf (cd : CourseData) : CourseDetails :=
  cd.course_details.getD {}

/-- `course_data.get("design_preferences", {})` (app.py line 150). -/
def designOf (cd : CourseData) : DesignPreferences :=
  cd.design_preferences.getD {}

/-- The raw `description` string before any truncation:
`details.get('description', '')`. -/
def rawDescription (cd : CourseData) : Str :=
  (courseDetailsOf cd).description.getD []

/-! ## Prompt builders (src/app.py lines 147-235, src/_old_python/app.py lines 148-266) -/

/-- `title = details.get('title', 'Course')` (app.py line 152). -/
def english_title (cd : CourseData) : Str :=
  (courseDetailsOf cd).title.getD "Course".data

/-- `description = details.get('description', '')[:100]` (app.py line 153). -/
def english_description (cd : CourseData) : Str :=
  (rawDescription cd).take 100

/-- The `logo_instruction` block of `build_english_prompt`
(app.py lines 155-163). -/
def english_logo_instruction (has_logo : Bool) : Str :=
  if has_logo then
    "\nLOGO INTEGRATION:\n- Place the attached logo image in the TOP RIGHT corner of the banner\n- Size the logo appropriately (visible but not dominant)\n- Ensure good contrast - add subtle white/light background behind logo if needed\n- The logo should look naturally integrated into the design\n".data
  else "".data

/-- `design.get('aesthetic_style', 'modern professional')`. -/
def design_style (cd : CourseData) : Str :=
  (designOf cd).aesthetic_style.getD "modern professional".data

/-- `design.get('color_palette', 'professional colors')`. -/
def design_colors (cd : CourseData) : Str :=
  (designOf cd).color_palette.getD "professional colors".data

/-- `design.get('lighting_and_atmosphere', 'bright and inviting')`. -/
def design_lighting (cd : CourseData) : Str :=
  (designOf cd).lighting_and_atmosphere.getD "bright and inviting".data

/-- The English-prompt f-string up to (and including) the opening quote of the
SUBTITLE slot (app.py lines 165-178). -/
def english_pre_subtitle (cd : CourseData) (has_logo : Bool) : Str :=
  "Create a professional course banner image.\n\nTopic: ".data ++ english_title cd ++
  "\nContext: ".data ++ english_description cd ++ "\n".data ++
  english_logo_instruction has_logo ++
  "\nDESIGN REQUIREMENTS:\n- Style: ".data ++ design_style cd ++
  "\n- Color scheme: ".data ++ design_colors cd ++
  "\n- Lighting: ".data ++ design_lighting cd ++
  "\n- 16:9 aspect ratio (1200x675)\n\nTEXT TO INCLUDE (in English for now - will be translated):\n- TITLE (large, prominent): \"".data ++ english_title cd ++
  "\"\n- SUBTITLE (smaller): \"".data

/-- The English-prompt f-string after the SUBTITLE slot (app.py lines 178-188). -/
def english_post_subtitle : Str :=
  "...\"\n- INFO LINE (small): \"Dates | Time | Location | Duration\"\n- BUTTON (call to action): \"Register Now\"\n\nLAYOUT:\n- Title and subtitle in upper area with semi-transparent dark overlay\n- Info line in middle area\n- Button/CTA at bottom with gradient background\n- Beautiful, relevant imagery that represents the course topic\n- Professional marketing aesthetic\n".data

/-- `build_english_prompt` (src/app.py lines 147-188; identical in
src/_old_python/app.py lines 178-219).  The SUBTITLE slot is
`description[:60]` where `description` is already `[:100]`-truncated. -/
def build_english_prompt (cd : CourseData) (has_logo : Bool) : Str :=
  english_pre_subtitle cd has_logo ++ (english_description cd).take 60 ++
  english_post_subtitle

/-- `title = details.get("title", "קורס")` (app.py line 195). -/
def hebrew_title (cd : CourseData) : Str :=
  (courseDetailsOf cd).title.getD "קורס".data

/-- `description = details.get("description", "")[:80]` (app.py line 196). -/
def hebrew_description (cd : CourseData) : Str :=
  (rawDescription cd).take 80

/-- `details.get("schedule", {})` used by the Hebrew builder. -/
def scheduleOf (cd : CourseData) : Schedule :=
  (courseDetailsOf cd).schedule.getD {}

/-- The Hebrew-edit f-string up to (and including) the opening quote of the
SUBTITLE slot (app.py lines 203-223). -/
def hebrew_pre_subtitle (cd : CourseData) : Str :=
  "\nTASK:\nYou are given an existing banner image.\nReplace ALL visible English text with Hebrew text ONLY.\nDo NOT change layout, colors, background photo, shapes, spacing, shadows, or composition.\nOnly change the text. Keep everything else pixel-identical.\n\nTYPOGRAPHY + RTL RULES (VERY IMPORTANT):\n- Hebrew must be proper RTL. Do not reverse letters.\n- Keep the same hierarchy: title > subtitle > info > button.\n- Keep the same font style/weight/size as close as possible.\n- Keep all text sharp and readable.\n- For Latin tech terms, keep them in English inside the Hebrew text.\n\nHEBREW TEXT (use exactly):\n\nTITLE:\n\"".data ++
  hebrew_title cd ++ "\"\n\nSUBTITLE:\n\"".data

/-- The Hebrew-edit f-string after the SUBTITLE slot (app.py lines 224-235). -/
def hebrew_post_subtitle (cd : CourseData) : Str :=
  "\"\n\nINFO LINE:\n\"תאריכים: ".data ++ ((scheduleOf cd).dates.getD []) ++
  " | שעות: ".data ++ ((scheduleOf cd).time.getD []) ++
  " | יום: ".data ++ ((scheduleOf cd).days.getD []) ++
  " | מיקום: ".data ++ ((courseDetailsOf cd).location.getD []) ++
  " | משך: ".data ++ ((courseDetailsOf cd).duration.getD []) ++
  "\"\n\nBUTTON:\n\"להרשמה עכשיו\"\n\nFINAL CHECK:\n- No English remains except tech terms.\n- Numbers stay in the same format.\n- Hebrew reads naturally RTL.\n".data

/-- `build_hebrew_edit_prompt` (src/app.py lines 191-235; identical in
src/_old_python/app.py lines 222-266). -/
def build_hebrew_edit_prompt (cd : CourseData) : Str :=
  hebrew_pre_subtitle cd ++ hebrew_description cd ++ hebrew_post_subtitle cd

/-- `title = details.get('title', 'Course')` in `build_background_prompt`
(src/_old_python/app.py line 153). -/
def background_title (cd : CourseData) : Str :=
  (courseDetailsOf cd).title.getD "Course".data

/-- `description = details.get('description', '')[:100]` in
`build_background_prompt` (src/_old_python/app.py line 154). -/
def background_description (cd : CourseData) : Str :=
  (rawDescription cd).take 100

/-- The background-prompt f-string up to (and including) the CONTEXT slot
opening (src/_old_python/app.py lines 156-159). -/
def background_pre_context (cd : CourseData) : Str :=
  "Create a beautiful, professional background image for a course landing page.\n\nTOPIC: ".data ++
  background_title cd ++ "\nCONTEXT: ".data

/-- The background-prompt f-string after the CONTEXT slot
(src/_old_python/app.py lines 159-175). -/
def background_post_context (cd : CourseData) : Str :=
  "\n\nDESIGN REQUIREMENTS:\n- Style: ".data ++ design_style cd ++
  "\n- Color scheme: ".data ++ design_colors cd ++
  "\n- Lighting: ".data ++ design_lighting cd ++
  "\n- 16:9 aspect ratio\n\nCRITICAL RULES:\n- DO NOT include ANY text, letters, words, or typography\n- DO NOT include any buttons, UI elements, or overlays\n- Create ONLY a pure visual background image\n- The image should represent the course topic through imagery alone\n- Leave space for text to be overlaid later (consider composition)\n- Make it visually appealing and professional\n- Soft focus or gradient areas are good for text placement\n".data

/-- `build_background_prompt` (src/_old_python/app.py lines 148-175). -/
def build_background_prompt (cd : CourseData) : Str :=
  background_pre_context cd ++ background_description cd ++
  background_post_context cd

/-- C5: the English prompt SUBTITLE slot is exactly the first 60 characters of
the raw description (the prior `[:100]` truncation does not disturb it), the
Hebrew edit SUBTITLE slot is exactly the first 80 characters, and the
background prompt CONTEXT slot is exactly the first 100 characters. -/
theorem description_truncation_exact (cd : CourseData) (hl : Bool) :
    build_english_prompt cd hl =
      english_pre_subtitle cd hl ++ (rawDescription cd).take 60 ++ english_post_subtitle
  ∧ build_hebrew_edit_prompt cd =
      hebrew_pre_subtitle cd ++ (rawDescription cd).take 80 ++ hebrew_post_subtitle cd
  ∧ build_background_prompt cd =
      background_pre_context cd ++ (rawDescription cd).take 100 ++ background_post_context cd := by
  refine ⟨?_, rfl, rfl⟩
  unfold build_english_prompt english_description
  rw [List.take_take]
  norm_num

/-- The fully-present completion of a course-details section for the English
and background builders: each field of `cd` that is absent (whether because
the whole `course_details` section is missing or just that field) is replaced
by its documented default — title "Course", empty strings for description,
schedule fields, location and duration — and each present field is kept. -/
def completedEnglishDetails (cd : CourseData) : CourseDetails :=
  { title := some ((courseDetailsOf cd).title.getD "Course".data)
    description := some (rawDescription cd)
    schedule := some { dates := some ((scheduleOf cd).dates.getD [])
                       time := some ((scheduleOf cd).time.getD [])
                       days := some ((scheduleOf cd).days.getD []) }
    location := some ((courseDetailsOf cd).location.getD [])
    duration := some ((courseDetailsOf cd).duration.getD []) }

/-- The fully-present completion of a course-details section for the Hebrew
edit builder: as `completedEnglishDetails`, but an absent title defaults to
"קורס". -/
def completedHebrewDetails (cd : CourseData) : CourseDetails :=
  { title := some ((courseDetailsOf cd).title.getD "קורס".data)
    description := some (rawDescription cd)
    schedule := some { dates := some ((scheduleOf cd).dates.getD [])
                       time := some ((scheduleOf cd).time.getD [])
                       days := some ((scheduleOf cd).days.getD []) }
    location := some ((courseDetailsOf cd).location.getD [])
    duration := some ((courseDetailsOf cd).duration.getD []) }

/-- C6: for every course-data dictionary — one lacking the whole
`course_details` section and equally one whose present section lacks any
individual field — each prompt builder behaves exactly as if the documented
defaults were substituted for whatever is absent: the first conjunct says the
builders cannot distinguish `cd` from its fully-present completion (in which
every absent field has been replaced by its default), and the remaining
conjuncts name the substituted defaults field by field: title "Course" in the
English and background prompts, title "קורס" in the Hebrew edit prompt, and
the empty string for the description, the schedule fields, the location and
the duration.  The builders are total functions (Python `dict.get` never
raises), so no exception is possible. -/
theorem missing_details_defaults (cd : CourseData) (hl : Bool) :
    (build_english_prompt cd hl =
       build_english_prompt { cd with course_details := some (completedEnglishDetails cd) } hl
     ∧ build_hebrew_edit_prompt cd =
       build_hebrew_edit_prompt { cd with course_details := some (completedHebrewDetails cd) }
     ∧ build_background_prompt cd =
       build_background_prompt { cd with course_details := some (completedEnglishDetails cd) })
  ∧ ((courseDetailsOf cd).title = none →
       english_title cd = "Course".data ∧ background_title cd = "Course".data
       ∧ hebrew_title cd = "קורס".data)
  ∧ ((courseDetailsOf cd).description = none →
       english_description cd = [] ∧ hebrew_description cd = []
       ∧ background_description cd = [])
  ∧ ((courseDetailsOf cd).schedule = none →
       (scheduleOf cd).dates.getD [] = [] ∧ (scheduleOf cd).time.getD [] = []
       ∧ (scheduleOf cd).days.getD [] = [])
  ∧ ((scheduleOf cd).dates = none → (scheduleOf cd).dates.getD [] = [])
  ∧ ((courseDetailsOf cd).location = none → (courseDetailsOf cd).location.getD [] = [])
  ∧ ((courseDetailsOf cd).duration = none → (courseDetailsOf cd).duration.getD [] = []) := by
  refine ⟨⟨rfl, rfl, rfl⟩, ?_, ?_, ?_, ?_, ?_, ?_⟩
  · intro h
    refine ⟨?_, ?_, ?_⟩ <;> simp [english_title, background_title, hebrew_title, h]
  · intro h
    refine ⟨?_, ?_, ?_⟩ <;>
      simp [english_description, hebrew_description, background_description,
        rawDescription, h]
  · intro h
    refine ⟨?_, ?_, ?_⟩ <;> simp [scheduleOf, h]
  · intro h
    simp [h]
  · intro h
    simp [h]
  · intro h
    simp [h]

/-- The empty course-data object (request JSON `{}`). -/
def cdEmpty : CourseData := {}

/-- A course-data object whose `course_details` section is present but lacks
every individual field. -/
def cdPartial : CourseData := { course_details := some {} }

/-- Witness for C6 at a dictionary with a present `course_details` section
lacking all individual fields. -/
theorem missing_details_defaults_witness :
    ((courseDetailsOf cdPartial).title = none)
  ∧ ((courseDetailsOf cdPartial).description = none)
  ∧ ((courseDetailsOf cdPartial).schedule = none)
  ∧ english_title cdPartial = "Course".data
  ∧ hebrew_title cdPartial = "קורס".data
  ∧ english_description cdPartial = []
  ∧ (build_english_prompt cdPartial true =
      build_english_prompt
        { cdPartial with course_details := some (completedEnglishDetails cdPartial) } true) :=
  ⟨rfl, rfl, rfl,
   ((missing_details_defaults cdPartial true).2.1 rfl).1,
   ((missing_details_defaults cdPartial true).2.1 rfl).2.2,
   ((missing_details_defaults cdPartial true).2.2.1 rfl).1,
   (missing_details_defaults cdPartial true).1.1⟩

/-! ## base64 (Python `base64.b64encode` / `base64.b64decode` on byte strings) -/

/-- The base64 alphabet character for a 6-bit value. -/
def b64Char (n : Nat) : Char :=
  if n < 26 then Char.ofNat (65 + n)
  else if n < 52 then Char.ofNat (97 + (n - 26))
  else if n < 62 then Char.ofNat (48 + (n - 52))
  else if n = 62 then Char.ofNat 43
  else Char.ofNat 47

/-- RFC 4648 base64 encoding of a byte list, with `=` padding
(the behaviour of Python `base64.b64encode`). -/
def b64encode : List Nat → List Char
  | [] => []
  | [a] => [b64Char (a / 4), b64Char (a % 4 * 16), Char.ofNat 61, Char.ofNat 61]
  | [a, b] => [b64Char (a / 4), b64Char (a % 4 * 16 + b / 16), b64Char (b % 16 * 4), Char.ofNat 61]
  | a :: b :: c :: rest =>
    b64Char (a / 4) :: b64Char (a % 4 * 16 + b / 16) ::
    b64Char (b % 16 * 4 + c / 64) :: b64Char (c % 64) :: b64encode rest

/-- The 6-bit value of a base64 alphabet character. -/
def b64Val (c : Char) : Nat :=
  if 65 ≤ c.toNat ∧ c.toNat ≤ 90 then c.toNat - 65
  else if 97 ≤ c.toNat ∧ c.toNat ≤ 122 then c.toNat - 97 + 26
  else if 48 ≤ c.toNat ∧ c.toNat ≤ 57 then c.toNat - 48 + 52
  else if c.toNat = 43 then 62
  else 63

/-- base64 decoding of a padded base64 string (the behaviour of Python
`base64.b64decode` on well-formed input). -/
def b64decode : List Char → List Nat
  | a :: b :: c :: d :: rest =>
    if c.toNat = 61 then [b64Val a * 4 + b64Val b / 16]
    else if d.toNat = 61 then
      [b64Val a * 4 + b64Val b / 16, b64Val b % 16 * 16 + b64Val c / 4]
    else
      (b64Val a * 4 + b64Val b / 16) :: (b64Val b % 16 * 16 + b64Val c / 4) ::
      ((b64Val c % 4 * 64 + b64Val d) :: b64decode rest)
  | _ => []

/-! ## Palette extraction (src/app.py lines 94-115, identical in
src/_old_python/app.py lines 95-116) -/

/-- An RGB triple as returned by ColorThief (each component a byte). -/
abbrev RGB := Nat × Nat × Nat

/-- Lowercase hex digit for a value below 16 (Python `x` format). -/
def hexDigit (n : Nat) : Char :=
  if n < 10 then Char.ofNat (48 + n) else Char.ofNat (97 + (n - 10))

/-- Fueled lowercase hex digits of a natural number, most significant first. -/
def natHexDigitsAux : Nat → Nat → List Char
  | 0, _ => []
  | fuel + 1, n =>
    if n < 16 then [hexDigit n]
    else natHexDigitsAux fuel (n / 16) ++ [hexDigit (n % 16)]

/-- Lowercase hex digits of a natural number (Python `format(n, "x")`);
`n + 1` units of fuel always suffice since `n` shrinks by a factor 16. -/
def natHexDigits (n : Nat) : List Char := natHexDigitsAux (n + 1) n

/-- Python `"{:02x}".format(n)`: lowercase hex, zero-padded to width 2. -/
def pyHex02 (n : Nat) : List Char :=
  List.replicate (2 - (natHexDigits n).length) (Char.ofNat 48) ++ natHexDigits n

/-- The inner `rgb_to_hex` of `extract_palette_from_image`
(src/app.py lines 103-104): `"#{:02x}{:02x}{:02x}".format(*rgb)`. -/
def rgb_to_hex (c : RGB) : List Char :=
  Char.ofNat 35 :: (pyHex02 c.1 ++ pyHex02 c.2.1 ++ pyHex02 c.2.2)

/-- The dictionary `extract_palette_from_image` returns on success. -/
structure PaletteResult where
  primary : Str
  accent : Str
  background : Str
  text : Str
  palette : List Str
deriving Repr, DecidableEq

/-- `extract_palette_from_image` (src/app.py lines 94-115).  The base64
decode and the two ColorThief calls are external; their joint outcome is the
`decoded` argument: `none` when any of them raised inside the `try` block,
`some (dominant, palette)` when `get_color(quality=1)` returned `dominant`
and `get_palette(color_count=5, quality=1)` returned `palette`.  Indexing
`palette[0]`, `palette[1]`, `palette[2]` raises `IndexError` when the palette
has fewer than three entries; the surrounding `except` turns that into
`None`, which the `Option.get?` match models. -/
def extract_palette_from_image (decoded : Option (RGB × List RGB)) :
    Option PaletteResult :=
  match decoded with
  | none => none
  | some (dominant, palette) =>
    match palette[0]?, palette[1]?, palette[2]? with
    | some p0, some p1, some p2 =>
      some { primary := rgb_to_hex p0, accent := rgb_to_hex p1,
             background := rgb_to_hex p2, text := rgb_to_hex dominant,
             palette := palette.map rgb_to_hex }
    | _, _, _ => none

/-- A byte-valued RGB triple (what ColorThief actually produces). -/
def isByteRGB (c : RGB) : Prop := c.1 < 256 ∧ c.2.1 < 256 ∧ c.2.2 < 256

instance (c : RGB) : Decidable (isByteRGB c) := by
  unfold isByteRGB
  infer_instance

/-- A lowercase hex digit character. -/
def isLowerHexDigitB (c : Char) : Bool :=
  decide ((48 ≤ c.toNat ∧ c.toNat ≤ 57) ∨ (97 ≤ c.toNat ∧ c.toNat ≤ 102))

/-- A lowercase 7-character color string of the form `#rrggbb`. -/
def isHexColor (s : Str) : Bool :=
  match s with
  | c :: rest => decide (c.toNat = 35) && (rest.length == 6) && rest.all isLowerHexDigitB
  | [] => false

/-- Every hex digit emitted by `hexDigit` on a value below 16 is a lowercase
hex digit character. -/
lemma hexDigit_isLower (n : Nat) (h : n < 16) :
    isLowerHexDigitB (hexDigit n) = true := by
  interval_cases n <;> decide

/-- `natHexDigits` of a value below 16 is the single digit. -/
lemma natHexDigits_lt16 (n : Nat) (h : n < 16) :
    natHexDigits n = [hexDigit n] := by
  simp [natHexDigits, natHexDigitsAux, h]

/-- `natHexDigits` of a byte value of at least 16 is the two-digit form. -/
lemma natHexDigits_two (n : Nat) (h1 : 16 ≤ n) (h2 : n < 256) :
    natHexDigits n = [hexDigit (n / 16), hexDigit (n % 16)] := by
  obtain ⟨m, rfl⟩ : ∃ m, n = m + 1 := ⟨n - 1, by omega⟩
  have hn : ¬ (m + 1 < 16) := by omega
  have hd : (m + 1) / 16 < 16 := by omega
  simp [natHexDigits, natHexDigitsAux, hn, hd]

/-- For a byte value, `pyHex02` is exactly two lowercase hex digits. -/
lemma pyHex02_byte (n : Nat) (h : n < 256) :
    (pyHex02 n).length = 2 ∧ (pyHex02 n).all isLowerHexDigitB = true := by
  by_cases h16 : n < 16
  · rw [pyHex02, natHexDigits_lt16 n h16]
    refine ⟨rfl, ?_⟩
    simp [hexDigit_isLower n h16]
    decide
  · rw [pyHex02, natHexDigits_two n (by omega) h]
    refine ⟨rfl, ?_⟩
    have hdiv : n / 16 < 16 := by omega
    have hmod : n % 16 < 16 := by omega
    simp [hexDigit_isLower _ hdiv, hexDigit_isLower _ hmod]

/-- For byte-valued RGB input, `rgb_to_hex` yields a lowercase 7-character
`#rrggbb` string. -/
lemma isHexColor_rgb_to_hex (c : RGB) (h : isByteRGB c) :
    isHexColor (rgb_to_hex c) = true := by
  obtain ⟨r, g, b⟩ := c
  obtain ⟨h1, h2, h3⟩ := h
  obtain ⟨lr, ar⟩ := pyHex02_byte r h1
  obtain ⟨lg, ag⟩ := pyHex02_byte g h2
  obtain ⟨lb, ab⟩ := pyHex02_byte b h3
  simp [rgb_to_hex, isHexColor, List.all_append, lr, lg, lb, ar, ag, ab]

/-- C7: whenever palette extraction succeeds, quantized slot 0 maps to
`primary`, slot 1 to `accent`, slot 2 to `background`, the separately computed
dominant color to `text`, and (for the byte-valued colors ColorThief
produces) every color value in the result, including every element of the
`palette` list, is a lowercase 7-character `#rrggbb` string. -/
theorem palette_mapping_hex (dominant : RGB) (palette : List RGB)
    (res : PaletteResult)
    (hs : extract_palette_from_image (some (dominant, palette)) = some res)
    (hdom : isByteRGB dominant) (hpal : ∀ c ∈ palette, isByteRGB c) :
    (∃ p0 p1 p2, palette[0]? = some p0 ∧ palette[1]? = some p1 ∧
      palette[2]? = some p2 ∧ res.primary = rgb_to_hex p0 ∧
      res.accent = rgb_to_hex p1 ∧ res.background = rgb_to_hex p2)
  ∧ res.text = rgb_to_hex dominant
  ∧ res.palette = palette.map rgb_to_hex
  ∧ isHexColor res.primary = true ∧ isHexColor res.accent = true
  ∧ isHexColor res.background = true ∧ isHexColor res.text = true
  ∧ (∀ s ∈ res.palette, isHexColor s = true) := by
  cases h0 : palette[0]? with
  | none => simp [extract_palette_from_image, h0] at hs
  | some p0 =>
  cases h1 : palette[1]? with
  | none => simp [extract_palette_from_image, h0, h1] at hs
  | some p1 =>
  cases h2 : palette[2]? with
  | none => simp [extract_palette_from_image, h0, h1, h2] at hs
  | some p2 =>
  rw [extract_palette_from_image] at hs
  simp only [h0, h1, h2, Option.some.injEq] at hs
  subst hs
  have m0 : p0 ∈ palette := List.getElem?_mem h0
  have m1 : p1 ∈ palette := List.getElem?_mem h1
  have m2 : p2 ∈ palette := List.getElem?_mem h2
  refine ⟨⟨p0, p1, p2, rfl, rfl, rfl, rfl, rfl, rfl⟩, rfl, rfl,
    isHexColor_rgb_to_hex p0 (hpal p0 m0), isHexColor_rgb_to_hex p1 (hpal p1 m1),
    isHexColor_rgb_to_hex p2 (hpal p2 m2), isHexColor_rgb_to_hex dominant hdom, ?_⟩
  intro s hsmem
  simp only [List.mem_map] at hsmem
  obtain ⟨c, hc, rfl⟩ := hsmem
  exact isHexColor_rgb_to_hex c (hpal c hc)

/-- Concrete dominant color for the C7 witness. -/
def cexDom : RGB := (0, 10, 255)

/-- Concrete five-color palette for the C7 witness. -/
def cexPal : List RGB := [(1, 2, 3), (4, 5, 6), (7, 8, 9), (250, 251, 252), (16, 32, 64)]

/-- The palette dictionary extraction produces on the C7 witness input. -/
def cexRes : PaletteResult :=
  { primary := "#010203".data
    accent := "#040506".data
    background := "#070809".data
    text := "#000aff".data
    palette := ["#010203".data, "#040506".data, "#070809".data, "#fafbfc".data, "#102040".data] }

/-- Witness for C7 at a concrete quantization outcome. -/
theorem palette_mapping_hex_witness :
    (extract_palette_from_image (some (cexDom, cexPal)) = some cexRes)
  ∧ isByteRGB cexDom ∧ (∀ c ∈ cexPal, isByteRGB c)
  ∧ cexRes.text = rgb_to_hex cexDom
  ∧ cexRes.palette = cexPal.map rgb_to_hex
  ∧ (∀ s ∈ cexRes.palette, isHexColor s = true) := by
  have h1 : extract_palette_from_image (some (cexDom, cexPal)) = some cexRes := by decide
  have h2 : isByteRGB cexDom := by decide
  have h3 : ∀ c ∈ cexPal, isByteRGB c := by decide
  have main := palette_mapping_hex cexDom cexPal cexRes h1 h2 h3
  exact ⟨h1, h2, h3, main.2.1, main.2.2.1, main.2.2.2.2.2.2.2⟩

/-! ## Logo loading (src/app.py lines 36-91, identical in
src/_old_python/app.py lines 37-92)

Paths are lists of segments.  `Path(app.root_path) / logo_url.lstrip("/")`
is pure-path concatenation: pathlib collapses duplicate slashes and single
dots but keeps `..` segments, which the filesystem then resolves during
`exists()`/`open()`.  `resolveDots` models that kernel-level resolution. -/

/-- Python `str.split(sep)` for a one-character separator. -/
def pySplitOn (sep : Char) : List Char → List (List Char)
  | [] => [[]]
  | c :: rest =>
    let r := pySplitOn sep rest
    if c = sep then [] :: r
    else (c :: r.headD []) :: r.tail

/-- The segments of a relative path as pathlib normalizes them: split on
slashes, dropping empty segments and single dots. -/
def pathComponents (s : List Char) : List (List Char) :=
  (pySplitOn '/' s).filter (fun seg => !seg.isEmpty && !(seg == ".".data))

/-- POSIX path-lookup resolution of `..` segments (each `..` pops the
previous segment; `..` at the root stays at the root). -/
def resolveDots (segs : List (List Char)) : List (List Char) :=
  segs.foldl (fun acc seg => if seg = "..".data then acc.dropLast else acc ++ [seg]) []

/-- `pathlib.PurePath.suffix` of a final path component: the part from the
last dot, provided that dot is neither the first nor the last character. -/
def pySuffix (name : List Char) : List Char :=
  match name.reverse.findIdx? (fun c => c == '.') with
  | none => []
  | some ri =>
    let i := name.length - 1 - ri
    if 0 < i ∧ i < name.length - 1 then name.drop i else []

/-- The `mime_types` dict lookup with default (src/app.py lines 70-75):
`.png` maps to `image/png`, `.jpg`/`.jpeg` to `image/jpeg`, and everything
else defaults to `image/png`. -/
def mimeOf (suffix : List Char) : Str :=
  if suffix = ".png".data then "image/png".data
  else if suffix = ".jpg".data then "image/jpeg".data
  else if suffix = ".jpeg".data then "image/jpeg".data
  else "image/png".data

/-- A file on disk: `content = none` means the file exists but `open`
raises (e.g. a permission error); `content = some bs` means reading
yields the bytes `bs`. -/
structure FileEntry where
  content : Option (List Nat)
deriving Repr, DecidableEq

/-- The environment of the logo loader: the Flask `app.root_path`, the
filesystem (keyed by resolved absolute path), the `HAS_WAND` flag, the Wand
SVG-to-PNG conversion (`none` = raised, caught inside the `try`), and PIL
`Image.open` decoding (`none` = raised). -/
structure LogoEnv where
  root : List (List Char)
  file : List (List Char) → Option FileEntry
  hasWand : Bool
  svgConvert : List Nat → Option (List Nat)
  pilDecode : List Nat → Option Img

/-- A Python exception escaping a loader: an `OSError` from `open`, or a
PIL `UnidentifiedImageError` from `Image.open`. -/
inductive PyExc
  | osError
  | imageError
deriving Repr, DecidableEq

/-- The relative segments of `logo_url.lstrip("/")`. -/
def logoRelSegs (logo_url : Str) : List (List Char) :=
  pathComponents (logo_url.dropWhile (fun c => c == '/'))

/-- `file_path = Path(app.root_path) / logo_url.lstrip("/")`
(src/app.py line 43), unresolved. -/
def logoFilePath (env : LogoEnv) (logo_url : Str) : List (List Char) :=
  env.root ++ logoRelSegs logo_url

/-- `suffix = file_path.suffix.lower()` (src/app.py line 51). -/
def logoSuffix (env : LogoEnv) (logo_url : Str) : Str :=
  (pySuffix ((logoFilePath env logo_url).getLastD [])).map Char.toLower

/-- `load_logo_as_base64` (src/app.py lines 36-80).  Note from the source:
the URL guard is only `logo_url.startswith("/static/")`; the SVG branch
wraps its work in `try`/`except`, but the plain `open(file_path, "rb")`
read on line 77 is not wrapped, so a failing `open` propagates. -/
def load_logo_as_base64 (env : LogoEnv) (logo_url : Str) :
    Except PyExc (Option (Str × Str)) :=
  if logo_url = [] then .ok none
  else if "/static/".data.isPrefixOf logo_url then
    match env.file (resolveDots (logoFilePath env logo_url)) with
    | none => .ok none
    | some entry =>
      if logoSuffix env logo_url = ".svg".data then
        if !env.hasWand then .ok none
        else
          match entry.content with
          | none => .ok none
          | some bs =>
            match env.svgConvert bs with
            | none => .ok none
            | some png => .ok (some (b64encode png, "image/png".data))
      else
        match entry.content with
        | none => .error PyExc.osError
        | some bs => .ok (some (b64encode bs, mimeOf (logoSuffix env logo_url)))
  else .ok none

/-- `load_logo_as_pil` (src/app.py lines 83-91).  `Image.open` on the
decoded bytes is not wrapped in `try`, so undecodable bytes propagate
a PIL exception. -/
def load_logo_as_pil (env : LogoEnv) (logo_url : Str) : Except PyExc (Option Img) :=
  match load_logo_as_base64 env logo_url with
  | .error e => .error e
  | .ok none => .ok none
  | .ok (some (b64_data, _)) =>
    match env.pilDecode (b64decode b64_data) with
    | none => .error PyExc.imageError
    | some img => .ok (some img)

/-- Environment exhibiting the `..` traversal: the app root is `app/`, and a
readable file `app/secret.png` sits outside the static root `app/static/`. -/
def cexTravEnv : LogoEnv :=
  { root := ["app".data]
    file := fun p =>
      if p = ["app".data, "secret.png".data] then some { content := some [1, 2, 3] }
      else none
    hasWand := false
    svgConvert := fun _ => none
    pilDecode := fun _ => none }

/-- The traversal URL: it begins with the `/static/` prefix yet resolves to
`app/secret.png`, outside `app/static/`. -/
def cexTravUrl : Str := "/static/../secret.png".data

/-- C4 (code bug exhibit): on the traversal URL `/static/../secret.png`, the
resolved path escapes the static root (`app/static/` is not a prefix of the
resolved path), yet `load_logo_as_base64` reads the file and returns its
base64 content rather than the absent signal `None`.  The
`startswith("/static/")` guard alone does not stop `..` traversal. -/
theorem logo_traversal_bug :
    resolveDots (logoFilePath cexTravEnv cexTravUrl) = ["app".data, "secret.png".data]
  ∧ (["app".data, "static".data].isPrefixOf
      (resolveDots (logoFilePath cexTravEnv cexTravUrl))) = false
  ∧ load_logo_as_base64 cexTravEnv cexTravUrl = .ok (some ("AQID".data, "image/png".data)) :=
  ⟨by decide, by decide, rfl⟩

/-- C8 amended: the loaders do degrade to the absent signal on every failure
path that the code actually guards: a `logo_url` without the `/static/`
prefix, a missing file, an `.svg` without Wand installed, and a failing
(`try`-wrapped) SVG conversion all yield `None` without raising. -/
theorem logo_loader_safe_paths (env : LogoEnv) (url : Str)
    (h : ("/static/".data.isPrefixOf url) = false
      ∨ env.file (resolveDots (logoFilePath env url)) = none
      ∨ (logoSuffix env url = ".svg".data ∧ env.hasWand = false)
      ∨ (logoSuffix env url = ".svg".data ∧ ∀ bs, env.svgConvert bs = none)) :
    load_logo_as_pil env url = .ok none := by
  have hb : load_logo_as_base64 env url = .ok none := by
    by_cases hurl : url = []
    · simp [load_logo_as_base64, hurl]
    · rcases h with h | h | ⟨hsvg, hw⟩ | ⟨hsvg, hcv⟩
      · simp [load_logo_as_base64, hurl, h]
      · by_cases hpre : ("/static/".data.isPrefixOf url) = true
        · simp [load_logo_as_base64, hurl, hpre, h]
        · simp at hpre
          simp [load_logo_as_base64, hurl, hpre]
      · by_cases hpre : ("/static/".data.isPrefixOf url) = true
        · cases hf : env.file (resolveDots (logoFilePath env url)) with
          | none => simp [load_logo_as_base64, hurl, hpre, hf]
          | some entry => simp [load_logo_as_base64, hurl, hpre, hf, hsvg, hw]
        · simp at hpre
          simp [load_logo_as_base64, hurl, hpre]
      · by_cases hpre : ("/static/".data.isPrefixOf url) = true
        · cases hf : env.file (resolveDots (logoFilePath env url)) with
          | none => simp [load_logo_as_base64, hurl, hpre, hf]
          | some entry =>
            by_cases hw : env.hasWand
            · cases hc : entry.content with
              | none => simp [load_logo_as_base64, hurl, hpre, hf, hsvg, hw, hc]
              | some bs => simp [load_logo_as_base64, hurl, hpre, hf, hsvg, hw, hc, hcv bs]
            · simp [load_logo_as_base64, hurl, hpre, hf, hsvg, hw]
        · simp at hpre
          simp [load_logo_as_base64, hurl, hpre]
  simp [load_logo_as_pil, hb]

/-- Environment for the C8 witness: an empty filesystem. -/
def plainEnv : LogoEnv :=
  { root := ["app".data]
    file := fun _ => none
    hasWand := false
    svgConvert := fun _ => none
    pilDecode := fun _ => none }

/-- Witness for the amended C8 at a URL without the `/static/` prefix. -/
theorem logo_loader_safe_paths_witness :
    (("/static/".data.isPrefixOf "logo.png".data) = false
      ∨ plainEnv.file (resolveDots (logoFilePath plainEnv "logo.png".data)) = none
      ∨ (logoSuffix plainEnv "logo.png".data = ".svg".data ∧ plainEnv.hasWand = false)
      ∨ (logoSuffix plainEnv "logo.png".data = ".svg".data ∧ ∀ bs, plainEnv.svgConvert bs = none))
  ∧ load_logo_as_pil plainEnv "logo.png".data = .ok none :=
  ⟨Or.inl (by decide),
   logo_loader_safe_paths plainEnv "logo.png".data (Or.inl (by decide))⟩

/-- Environment where the logo file exists under the static root but `open`
raises (e.g. a permission error). -/
def cexUnreadableEnv : LogoEnv :=
  { root := ["app".data]
    file := fun p =>
      if p = ["app".data, "static".data, "logo.png".data] then some { content := none }
      else none
    hasWand := false
    svgConvert := fun _ => none
    pilDecode := fun _ => none }

/-- Environment where the logo file is readable but its bytes are not a
decodable image, so PIL `Image.open` raises. -/
def cexUndecodableEnv : LogoEnv :=
  { root := ["app".data]
    file := fun p =>
      if p = ["app".data, "static".data, "photo.png".data] then some { content := some [0] }
      else none
    hasWand := false
    svgConvert := fun _ => none
    pilDecode := fun _ => none }

/-- C8 counterexample: the claim "the logo-loading operations never raise an
exception to their caller" is false on the code.  An existing but unreadable
file makes `load_logo_as_base64` propagate the `open` error (the non-SVG read
is outside any `try`), and undecodable image bytes make `load_logo_as_pil`
propagate the PIL error (`Image.open` is outside any `try`). -/
theorem logo_loader_raises :
    load_logo_as_base64 cexUnreadableEnv "/static/logo.png".data = .error PyExc.osError
  ∧ load_logo_as_pil cexUndecodableEnv "/static/photo.png".data = .error PyExc.imageError :=
  ⟨rfl, rfl⟩

/-- C9: an existing readable file under the static root whose (lowercased)
suffix is none of `.svg`, `.png`, `.jpg`, `.jpeg` is not reported absent:
its bytes are read (base64-encoded) and returned with the MIME type
defaulted to `image/png`. -/
theorem unknown_suffix_reads_png_mime (env : LogoEnv) (url : Str) (bs : List Nat)
    (hp : ("/static/".data.isPrefixOf url) = true)
    (hf : env.file (resolveDots (logoFilePath env url)) = some { content := some bs })
    (h1 : logoSuffix env url ≠ ".svg".data) (h2 : logoSuffix env url ≠ ".png".data)
    (h3 : logoSuffix env url ≠ ".jpg".data) (h4 : logoSuffix env url ≠ ".jpeg".data) :
    load_logo_as_base64 env url = .ok (some (b64encode bs, "image/png".data)) := by
  have hurl : url ≠ [] := by
    intro he
    rw [he] at hp
    exact absurd hp (by decide)
  simp [load_logo_as_base64, hurl, hp, hf, h1, mimeOf, h2, h3, h4]

/-- Environment for the C9 witness: a readable `.gif` under the static root. -/
def cexGifEnv : LogoEnv :=
  { root := ["app".data]
    file := fun p =>
      if p = ["app".data, "static".data, "anim.gif".data] then some { content := some [7, 8] }
      else none
    hasWand := false
    svgConvert := fun _ => none
    pilDecode := fun _ => none }

/-- Witness for C9 at a concrete `.gif` file. -/
theorem unknown_suffix_reads_png_mime_witness :
    (("/static/".data.isPrefixOf "/static/anim.gif".data) = true)
  ∧ cexGifEnv.file (resolveDots (logoFilePath cexGifEnv "/static/anim.gif".data)) =
      some { content := some [7, 8] }
  ∧ logoSuffix cexGifEnv "/static/anim.gif".data = ".gif".data
  ∧ load_logo_as_base64 cexGifEnv "/static/anim.gif".data =
      .ok (some (b64encode [7, 8], "image/png".data)) :=
  ⟨by decide, by decide, by decide,
   unknown_suffix_reads_png_mime cexGifEnv "/static/anim.gif".data [7, 8]
     (by decide) (by decide) (by decide) (by decide) (by decide) (by decide)⟩

/-! ## The three-step banner pipeline (src/_old_python/app.py lines 269-377)
and the /api/generate-banner handler (lines 398-446)

Each `client.models.generate_content` call followed by
`extract_image_from_response` is an external effect; the `GenOracle` records
its outcome per step: `Except.error` models a raised exception (network or
API error), `.ok none` models "no image in the response", `.ok (some img)`
a successfully extracted image. -/

/-- A message-carrying exception from a `generate_content` call. -/
inductive GenError
  | err (msg : Str)
deriving Repr, DecidableEq

/-- One part of a model request: inline image bytes or prompt text
(`types.Part`). -/
inductive RequestPart
  | inlineData (mime : Str) (imageBytes : List Nat)
  | text (s : Str)
deriving Repr, DecidableEq

/-- Outcomes of the three generation calls, indexed by what the code sends:
the background prompt, the English parts list, and the English image plus
Hebrew prompt. -/
structure GenOracle where
  bg : Str → Except GenError (Option Img)
  en : List RequestPart → Except GenError (Option Img)
  he : Img → Str → Except GenError (Option Img)

/-- `image_to_base64_url` (src/app.py lines 139-144):
`f"data:image/png;base64,{b64}"`. -/
def image_to_base64_url (img : Img) : Str :=
  "data:image/png;base64,".data ++ b64encode img

/-- The `parts_en` list for the English generation call
(src/_old_python/app.py lines 305-316): the logo (if any) as an inline PNG
part, then the English prompt text built with `has_logo = logo_img is not
None`. -/
def english_parts (cd : CourseData) (logo_img : Option Img) : List RequestPart :=
  (match logo_img with
   | some l => [RequestPart.inlineData "image/png".data l]
   | none => []) ++ [RequestPart.text (build_english_prompt cd logo_img.isSome)]

/-- The dict `generate_banner_with_hebrew` returns on success:
`{"banner": ..., "background": ...}`, both data URLs. -/
structure HebrewResult where
  banner : Str
  background : Str
deriving Repr, DecidableEq

/-- `generate_banner_with_hebrew` (src/_old_python/app.py lines 269-377),
the three-step pipeline: Step 0/1 background (optional), Step 1/2 English
banner (required; `None` aborts), Step 2/3 Hebrew edit (soft-fails to the
best available background/English image for both outputs). -/
def generate_banner_with_hebrew (g : GenOracle) (course_data : CourseData)
    (logo_img : Option Img) : Except GenError (Option HebrewResult) := do
  let img_bg ← g.bg (build_background_prompt course_data)
  let background_url0 := img_bg.map image_to_base64_url
  let img_en_opt ← g.en (english_parts course_data logo_img)
  match img_en_opt with
  | none => pure none
  | some img_en =>
    let background_url := background_url0.getD (image_to_base64_url img_en)
    let img_he_opt ← g.he img_en (build_hebrew_edit_prompt course_data)
    match img_he_opt with
    | none => pure (some { banner := background_url, background := background_url })
    | some img_he =>
      pure (some { banner := image_to_base64_url img_he, background := background_url })

/-- The outcome of base64-decoding the banner data and running the two
ColorThief calls on it (src/_old_python/app.py lines 433-435), as the
handler's external decode effect. -/
abbrev ColorOracle := Str → Option (RGB × List RGB)

/-- The JSON body and HTTP status the /api/generate-banner handler
produces. `jsonify` without an explicit code serves HTTP 200. -/
structure BannerResponse where
  status : Nat
  success : Bool
  error : Option Str := none
  images : List Str := []
  background_url : Option Str := none
  extracted_colors : Option PaletteResult := none
deriving Repr, DecidableEq

/-- `result["banner"].split(",")[1] if "," in result["banner"] else
result["banner"]` (src/_old_python/app.py line 434). -/
def pyCommaField1 (s : Str) : Str :=
  if s.contains ',' then (pySplitOn ',' s).getD 1 [] else s

/-- `str(e)` for a generation exception. -/
def strOfGenError : GenError → Str
  | .err msg => msg

/-- The `/api/generate-banner` handler (src/_old_python/app.py lines
398-446) after logo loading: a raised pipeline exception or a `None` result
yield `success:false` with HTTP 500; otherwise palette extraction is
attempted on the banner and the success body carries `images`
(`[result["banner"]]`) and `background_url` (`result["background"]`). -/
def generate_banner (g : GenOracle) (ct : ColorOracle) (course_data : CourseData)
    (logo_img : Option Img) : BannerResponse :=
  match generate_banner_with_hebrew g course_data logo_img with
  | .error e => { status := 500, success := false, error := some (strOfGenError e) }
  | .ok none => { status := 500, success := false, error := some "Failed to generate images".data }
  | .ok (some result) =>
    let banner_data := pyCommaField1 result.banner
    let extracted_colors := extract_palette_from_image (ct banner_data)
    { status := 200, success := true, images := [result.banner],
      background_url := some result.background, extracted_colors := extracted_colors }

/-- C1: if Step 3 (the Hebrew edit) yields no image while Step 2 (the
English banner) succeeded, the pipeline still returns a successful result
whose `banner` equals its `background` (both the best available
background/English image: the Step-1 background if it succeeded, else the
Step-2 English banner), and the endpoint answers success (HTTP 200, no
error), not an error. -/
theorem hebrew_edit_fallback_success (g : GenOracle) (ct : ColorOracle)
    (cd : CourseData) (logo_img : Option Img) (bgOpt : Option Img) (img_en : Img)
    (hbg : g.bg (build_background_prompt cd) = .ok bgOpt)
    (hen : g.en (english_parts cd logo_img) = .ok (some img_en))
    (hhe : g.he img_en (build_hebrew_edit_prompt cd) = .ok none) :
    (∃ r, generate_banner_with_hebrew g cd logo_img = .ok (some r)
      ∧ r.banner = r.background
      ∧ r.background = (bgOpt.map image_to_base64_url).getD (image_to_base64_url img_en))
  ∧ (generate_banner g ct cd logo_img).success = true
  ∧ (generate_banner g ct cd logo_img).status = 200
  ∧ (generate_banner g ct cd logo_img).error = none := by
  have hmain : generate_banner_with_hebrew g cd logo_img =
      .ok (some { banner := (bgOpt.map image_to_base64_url).getD (image_to_base64_url img_en),
                  background := (bgOpt.map image_to_base64_url).getD (image_to_base64_url img_en) }) := by
    simp [generate_banner_with_hebrew, hbg, hen, hhe, Bind.bind, Except.bind, Pure.pure, Except.pure]
  refine ⟨⟨_, hmain, rfl, rfl⟩, ?_, ?_, ?_⟩ <;> simp [generate_banner, hmain]

/-- Sample oracle for the C1 witness: background and English succeed, the
Hebrew edit yields no image. -/
def cexHeFailG : GenOracle :=
  { bg := fun _ => .ok (some [5, 6])
    en := fun _ => .ok (some [1, 2])
    he := fun _ _ => .ok none }

/-- Sample decode outcome for witnesses: palette extraction raised. -/
def cexColor : ColorOracle := fun _ => none

/-- Witness for C1 at a concrete oracle. -/
theorem hebrew_edit_fallback_success_witness :
    (cexHeFailG.bg (build_background_prompt cdEmpty) = .ok (some [5, 6]))
  ∧ (cexHeFailG.en (english_parts cdEmpty none) = .ok (some [1, 2]))
  ∧ (cexHeFailG.he [1, 2] (build_hebrew_edit_prompt cdEmpty) = .ok none)
  ∧ (generate_banner cexHeFailG cexColor cdEmpty none).success = true
  ∧ (generate_banner cexHeFailG cexColor cdEmpty none).status = 200 :=
  ⟨rfl, rfl, rfl,
   (hebrew_edit_fallback_success cexHeFailG cexColor cdEmpty none (some [5, 6]) [1, 2]
     rfl rfl rfl).2.1,
   (hebrew_edit_fallback_success cexHeFailG cexColor cdEmpty none (some [5, 6]) [1, 2]
     rfl rfl rfl).2.2.1⟩

/-- C2: if Step 1 (the clean background) yields no image and Step 2 (the
English banner) succeeds (and Step 3 returns, with or without an image),
the pipeline result's `background` — and the endpoint's `background_url`
field — is the data URL of the Step-2 English banner, not empty or absent. -/
theorem background_fallback_to_english (g : GenOracle) (ct : ColorOracle)
    (cd : CourseData) (logo_img : Option Img) (img_en : Img) (heOpt : Option Img)
    (hbg : g.bg (build_background_prompt cd) = .ok none)
    (hen : g.en (english_parts cd logo_img) = .ok (some img_en))
    (hhe : g.he img_en (build_hebrew_edit_prompt cd) = .ok heOpt) :
    (∃ r, generate_banner_with_hebrew g cd logo_img = .ok (some r)
      ∧ r.background = image_to_base64_url img_en)
  ∧ (generate_banner g ct cd logo_img).background_url = some (image_to_base64_url img_en) := by
  cases heOpt with
  | none =>
    have hmain : generate_banner_with_hebrew g cd logo_img =
        .ok (some { banner := image_to_base64_url img_en,
                    background := image_to_base64_url img_en }) := by
      simp [generate_banner_with_hebrew, hbg, hen, hhe, Bind.bind, Except.bind, Pure.pure, Except.pure]
    exact ⟨⟨_, hmain, rfl⟩, by simp [generate_banner, hmain]⟩
  | some img_he =>
    have hmain : generate_banner_with_hebrew g cd logo_img =
        .ok (some { banner := image_to_base64_url img_he,
                    background := image_to_base64_url img_en }) := by
      simp [generate_banner_with_hebrew, hbg, hen, hhe, Bind.bind, Except.bind, Pure.pure, Except.pure]
    exact ⟨⟨_, hmain, rfl⟩, by simp [generate_banner, hmain]⟩

/-- Sample oracle for the C2 witness: background fails, English and Hebrew
succeed. -/
def cexBgFailG : GenOracle :=
  { bg := fun _ => .ok none
    en := fun _ => .ok (some [1, 2])
    he := fun _ _ => .ok (some [3, 4]) }

/-- Witness for C2 at a concrete oracle. -/
theorem background_fallback_to_english_witness :
    (cexBgFailG.bg (build_background_prompt cdEmpty) = .ok none)
  ∧ (cexBgFailG.en (english_parts cdEmpty none) = .ok (some [1, 2]))
  ∧ (cexBgFailG.he [1, 2] (build_hebrew_edit_prompt cdEmpty) = .ok (some [3, 4]))
  ∧ (generate_banner cexBgFailG cexColor cdEmpty none).background_url =
      some (image_to_base64_url [1, 2]) :=
  ⟨rfl, rfl, rfl,
   (background_fallback_to_english cexBgFailG cexColor cdEmpty none [1, 2] (some [3, 4])
     rfl rfl rfl).2⟩

/-- C3: if Step 2 (the English banner) yields no image, the pipeline
returns `None` and the endpoint answers `success:false` with an error
string and HTTP 500, whatever Step 1 yielded. -/
theorem english_failure_returns_500 (g : GenOracle) (ct : ColorOracle)
    (cd : CourseData) (logo_img : Option Img) (bgOpt : Option Img)
    (hbg : g.bg (build_background_prompt cd) = .ok bgOpt)
    (hen : g.en (english_parts cd logo_img) = .ok none) :
    generate_banner_with_hebrew g cd logo_img = .ok none
  ∧ (generate_banner g ct cd logo_img).status = 500
  ∧ (generate_banner g ct cd logo_img).success = false
  ∧ (generate_banner g ct cd logo_img).error = some "Failed to generate images".data := by
  have hmain : generate_banner_with_hebrew g cd logo_img = .ok none := by
    simp [generate_banner_with_hebrew, hbg, hen, Bind.bind, Except.bind, Pure.pure, Except.pure]
  exact ⟨hmain, by simp [generate_banner, hmain], by simp [generate_banner, hmain],
    by simp [generate_banner, hmain]⟩

/-- Sample oracle for the C3 witness: background succeeds but the English
banner yields no image. -/
def cexEnFailG : GenOracle :=
  { bg := fun _ => .ok (some [9])
    en := fun _ => .ok none
    he := fun _ _ => .ok (some [3, 4]) }

/-- Witness for C3 at a concrete oracle. -/
theorem english_failure_returns_500_witness :
    (cexEnFailG.bg (build_background_prompt cdEmpty) = .ok (some [9]))
  ∧ (cexEnFailG.en (english_parts cdEmpty none) = .ok none)
  ∧ (generate_banner cexEnFailG cexColor cdEmpty none).status = 500
  ∧ (generate_banner cexEnFailG cexColor cdEmpty none).success = false :=
  ⟨rfl, rfl,
   (english_failure_returns_500 cexEnFailG cexColor cdEmpty none (some [9]) rfl rfl).2.1,
   (english_failure_returns_500 cexEnFailG cexColor cdEmpty none (some [9]) rfl rfl).2.2.1⟩

/-! ## The /api/create-landing handler (src/_old_python/app.py lines
449-536)

The in-memory store `landing_pages` is a map from id to
`{"course_data": ..., "created_at": ...}`; the handler stores the raw course
data, so the store is polymorphic in the course-data payload.  The random
`str(uuid.uuid4())` and the `datetime.now(...)` timestamp enter as
arguments; the Apps Script webhook relay (lines 506-520) never touches the
store and only logs, so it is not part of the store model. -/

/-- The JSON body the /api/create-landing handler returns. -/
structure CreateLandingResponse where
  success : Bool
  landingId : Str
  url : Str
deriving Repr, DecidableEq

/-- `create_landing` (src/_old_python/app.py lines 459-536) restricted to
its effect on `landing_pages` and its response:
`landing_id = str(uuid.uuid4())[:8]`, then
`landing_pages[landing_id] = {"course_data": ..., "created_at": ...}`
(plain dict assignment: no collision check, silent overwrite), and the
response `{"success": True, "landingId": ..., "url": f"{base}/l/{id}"}`. -/
def create_landing {α : Type} (uuid_str now nextjs_base : Str) (course_data : α)
    (landing_pages : Str → Option (α × Str)) :
    (Str → Option (α × Str)) × CreateLandingResponse :=
  let landing_id := uuid_str.take 8
  (fun k => if k = landing_id then some (course_data, now) else landing_pages k,
   { success := true, landingId := landing_id,
     url := nextjs_base ++ "/l/".data ++ landing_id })

/-- C10: each call stores exactly one entry, keyed by the first 8 characters
of the fresh UUID string, leaves every other key unchanged, and performs no
collision check — the stored value is the new entry whatever the map held at
that key before (silent overwrite: the first conjunct holds for arbitrary
prior `landing_pages`). -/
theorem create_landing_store_update {α : Type} (uuid_str now nextjs_base : Str)
    (course_data : α) (landing_pages : Str → Option (α × Str))
    (h : 8 ≤ uuid_str.length) :
    ((create_landing uuid_str now nextjs_base course_data landing_pages).1
        (uuid_str.take 8) = some (course_data, now))
  ∧ (∀ k, k ≠ uuid_str.take 8 →
      (create_landing uuid_str now nextjs_base course_data landing_pages).1 k =
        landing_pages k)
  ∧ (uuid_str.take 8).length = 8
  ∧ (create_landing uuid_str now nextjs_base course_data landing_pages).2.landingId =
      uuid_str.take 8
  ∧ (create_landing uuid_str now nextjs_base course_data landing_pages).2.success = true := by
  refine ⟨by simp [create_landing], ?_, ?_, rfl, rfl⟩
  · intro k hk
    simp [create_landing, hk]
  · simp [List.length_take]
    omega

/-- A sample 36-character UUID string. -/
def cexUuid : Str := "1a2b3c4d-5e6f-7890-abcd-ef0123456789".data

/-- A sample creation timestamp. -/
def cexNow : Str := "2025-01-01T00:00:00+00:00".data

/-- A sample NEXTJS_BASE_URL value. -/
def cexBase : Str := "http://localhost:3000".data

/-- A sample prior store that already holds an entry under every key, so the
witness exercises the silent-overwrite path. -/
def cexPages : Str → Option (Nat × Str) := fun _ => some (0, "old".data)

/-- Witness for C10 at a concrete UUID and a colliding prior store. -/
theorem create_landing_store_update_witness :
    (8 ≤ cexUuid.length)
  ∧ ((create_landing cexUuid cexNow cexBase (42 : Nat) cexPages).1 (cexUuid.take 8) =
      some (42, cexNow))
  ∧ (cexUuid.take 8).length = 8 :=
  ⟨by decide,
   (create_landing_store_update cexUuid cexNow cexBase 42 cexPages (by decide)).1,
   (create_landing_store_update cexUuid cexNow cexBase 42 cexPages (by decide)).2.2.1⟩

end LandingGen
